import Mathlib

/-!
Shallow embedding of the `nia_core` package (files `logging_config.py` and
`brain_core.py`): the multi-sink logging configuration, the `LogContext`
timed-scope context manager, and the `NiaBrainCore` reasoning/memory stub.
Severities follow the numeric levels of Python's `logging` module.
-/

namespace Nia

/-- Numeric level of `logging.DEBUG`. -/
def DEBUG : Nat := 10

/-- Numeric level of `logging.INFO`. -/
def INFO : Nat := 20

/-- Numeric level of `logging.WARNING`. -/
def WARNING : Nat := 30

/-- Numeric level of `logging.ERROR`. -/
def ERROR : Nat := 40

/-- Numeric level of `logging.CRITICAL`. -/
def CRITICAL : Nat := 50

/-- The five severities an event emitted through the logger's methods
(`logger.debug` .. `logger.critical`) can carry. -/
inductive Severity where
  | debug
  | info
  | warning
  | error
  | critical
deriving DecidableEq, Repr

/-- Numeric level of a severity, as in Python's `logging` module. -/
def Severity.toLevel : Severity → Nat
  | .debug => DEBUG
  | .info => INFO
  | .warning => WARNING
  | .error => ERROR
  | .critical => CRITICAL

/-- A structured log record: severity plus rendered message. -/
structure LogEvent where
  severity : Nat
  message : String
deriving DecidableEq, Repr

/-- A handler attached to a logger in `setup_logging`: destination identifier,
minimum-severity threshold (`setLevel`), format string (`setFormatter`), and
optional rotation policy `(maxBytes, backupCount)` for a
`RotatingFileHandler`. -/
structure Sink where
  id : String
  threshold : Nat
  formatString : String
  rotation : Option (Nat × Nat)
deriving DecidableEq, Repr

/-- A named logger: its own level (`setLevel`) and its ordered handler list. -/
structure Logger where
  name : String
  level : Nat
  handlers : List Sink
deriving DecidableEq, Repr

/-- Lookup in an association list (a Python `dict` keyed by strings). -/
def assocGet {α : Type} (d : List (String × α)) (k : String) : Option α :=
  match d with
  | [] => none
  | (k1, v1) :: rest => if k1 = k then some v1 else assocGet rest k

/-- Insert-or-replace in an association list (`d[k] = v` on a Python `dict`). -/
def assocSet {α : Type} (d : List (String × α)) (k : String) (v : α) :
    List (String × α) :=
  match d with
  | [] => [(k, v)]
  | (k1, v1) :: rest =>
      if k1 = k then (k1, v) :: rest else (k1, v1) :: assocSet rest k v

/-- `LOG_FORMAT` from `logging_config.py`. -/
def LOG_FORMAT : String :=
  "%(asctime)s - %(name)s - %(levelname)s - [%(filename)s:%(lineno)d] - %(message)s"

/-- The audit handler's format string from `logging_config.py`. -/
def AUDIT_FORMAT : String := "%(asctime)s - AUDIT - %(levelname)s - %(message)s"

/-- The console handler's format string from `logging_config.py`. -/
def CONSOLE_FORMAT : String := "%(levelname)s: %(message)s [%(name)s]"

/-- The error-file handler: `FileHandler(ERROR_LOG)` at level ERROR, full
context format, no rotation. -/
def errorSink : Sink :=
  { id := "nia_errors.log", threshold := ERROR, formatString := LOG_FORMAT
    rotation := none }

/-- The info-file handler: `RotatingFileHandler(INFO_LOG, maxBytes=10*1024*1024,
backupCount=5)` at level INFO, full context format. -/
def infoSink : Sink :=
  { id := "nia_info.log", threshold := INFO, formatString := LOG_FORMAT
    rotation := some (10 * 1024 * 1024, 5) }

/-- The audit-file handler: `FileHandler(AUDIT_LOG)` at level INFO, simplified
AUDIT format, no rotation. -/
def auditSink : Sink :=
  { id := "nia_audit.log", threshold := INFO, formatString := AUDIT_FORMAT
    rotation := none }

/-- The console handler: `StreamHandler()` at level WARNING. -/
def consoleSink : Sink :=
  { id := "console", threshold := WARNING, formatString := CONSOLE_FORMAT
    rotation := none }

/-- The process-wide registry behind `logging.getLogger`: a map from logger
name to logger instance. -/
abbrev Registry := List (String × Logger)

/-- `logging.getLogger(name)`: return the registered logger for `name`,
creating a fresh one (level NOTSET, no handlers) and registering it on first
request. -/
def getLogger (reg : Registry) (name : String) : Logger × Registry :=
  match assocGet reg name with
  | some lg => (lg, reg)
  | none =>
      let lg : Logger := { name := name, level := 0, handlers := [] }
      (lg, assocSet reg name lg)

/-- `setup_logging(logger_name)` from `logging_config.py`: fetch the logger;
if it already has handlers return it unchanged, otherwise set its level to
DEBUG and attach the error, info, audit and console handlers in that order. -/
def setup_logging (reg : Registry) (logger_name : String) : Logger × Registry :=
  let (lg, reg1) := getLogger reg logger_name
  if !lg.handlers.isEmpty then
    (lg, reg1)
  else
    let lg2 : Logger :=
      { lg with
        level := DEBUG
        handlers := [errorSink, infoSink, auditSink, consoleSink] }
    (lg2, assocSet reg1 logger_name lg2)

/-- `Logger.callHandlers`: deliver a record to every attached handler whose
level is at most the record's level; each delivery is tagged with the
handler's destination id. -/
def callHandlers (lg : Logger) (ev : LogEvent) : List (String × LogEvent) :=
  lg.handlers.filterMap fun h =>
    if h.threshold ≤ ev.severity then some (h.id, ev) else none

/-- Emission of one record through a logger: the record is dispatched to the
handlers only when the logger level enables its severity
(`Logger.isEnabledFor`). -/
def Logger.emit (lg : Logger) (ev : LogEvent) : List (String × LogEvent) :=
  if lg.level ≤ ev.severity then callHandlers lg ev else []

/-- The exception information `__exit__` receives when the wrapped block
raises: the exception class name (`exc_type.__name__`) and its message
(`exc_val`). -/
structure ExcInfo where
  excType : String
  excVal : String
deriving DecidableEq, Repr

/-- Rendering of the elapsed duration into the terminal message (the
`:.2f` formatting of `duration` in `LogContext.__exit__`). -/
def durStr (d : Int) : String := toString d

/-- `LogContext` state: the operation label and the start time captured at
scope entry. -/
structure LogContext where
  operation : String
  start_time : Int
deriving DecidableEq, Repr

/-- `LogContext.__enter__`: capture the start time and emit the INFO-level
start event. -/
def LogContext.enterScope (op : String) (now : Int) : LogContext × LogEvent :=
  ({ operation := op, start_time := now },
   { severity := INFO, message := "START: " ++ op })

/-- `LogContext.__exit__`: compute the elapsed duration, emit INFO `COMPLETE`
on a clean exit or ERROR `FAILED` when an exception is in flight, and return
`False` so the exception is never suppressed. The computed duration is
returned alongside the event and the suppression flag. -/
def LogContext.exitScope (c : LogContext) (now : Int) (exc : Option ExcInfo) :
    LogEvent × Int × Bool :=
  let duration := now - c.start_time
  match exc with
  | none =>
      ({ severity := INFO
         message := "COMPLETE: " ++ c.operation ++ " (" ++ durStr duration ++ "s)" },
       duration, false)
  | some e =>
      ({ severity := ERROR
         message := "FAILED: " ++ c.operation ++ " after " ++ durStr duration ++
           "s - " ++ e.excType ++ ": " ++ e.excVal },
       duration, false)

/-- An event in the trace of a scoped run, tagged with whether the scope
itself emitted it (via `__enter__`/`__exit__`) or the wrapped body did. -/
structure TracedEvent where
  fromScope : Bool
  event : LogEvent
deriving DecidableEq, Repr

/-- Whether `pre` is a leading substring of `s`. -/
def strStartsWith (s pre : String) : Bool := decide (pre.data <+: s.data)

/-- Whether `needle` occurs somewhere inside `hay` (Python's `in` on
strings). -/
def strContainsSub (hay needle : String) : Bool :=
  decide (needle.data <:+: hay.data)

/-- An event whose message is a `START:` line. -/
def isStartEvent (e : LogEvent) : Bool := strStartsWith e.message "START: "

/-- An event whose message is a `COMPLETE:` line. -/
def isCompleteEvent (e : LogEvent) : Bool := strStartsWith e.message "COMPLETE: "

/-- An event whose message is a `FAILED:` line. -/
def isFailedEvent (e : LogEvent) : Bool := strStartsWith e.message "FAILED: "

/-- A terminal event of a scope: `COMPLETE` or `FAILED`. -/
def isTerminalEvent (e : LogEvent) : Bool := isCompleteEvent e || isFailedEvent e

/-- A `with LogContext(op, logger):` block around a body that either returns
a value or raises, and emits its own log events. The scope emits the start
event, runs the body, and emits the terminal event computed by `__exit__`;
since `__exit__` returns `False`, a raising body propagates its exception
(`Except.error`), while if it were suppressed the block would fall through
yielding no value (`.ok none`). -/
def runScoped {α : Type} (op : String) (tEnter tExit : Int)
    (body : Except ExcInfo α × List LogEvent) :
    List TracedEvent × Except ExcInfo (Option α) :=
  let (c, startEv) := LogContext.enterScope op tEnter
  let (res, bodyEvs) := body
  let excOpt : Option ExcInfo := match res with
    | .ok _ => none
    | .error e => some e
  let (endEv, _, suppress) := c.exitScope tExit excOpt
  let outcome : Except ExcInfo (Option α) := match res with
    | .ok a => .ok (some a)
    | .error e => if suppress then .ok none else .error e
  ((⟨true, startEv⟩ : TracedEvent) ::
     ((bodyEvs.map fun e => (⟨false, e⟩ : TracedEvent)) ++ [⟨true, endEv⟩]),
   outcome)

/-- A dynamically typed Python value, covering the shapes the brain stub
handles. -/
inductive PyVal where
  | none
  | str (s : String)
  | int (n : Int)
  | bool (b : Bool)
  | dict (entries : List (String × PyVal))
  | list (elems : List PyVal)

/-- Python truthiness (`bool(v)`). -/
def PyVal.isTruthy : PyVal → Bool
  | .none => false
  | .str s => !s.isEmpty
  | .int n => n != 0
  | .bool b => b
  | .dict entries => !entries.isEmpty
  | .list elems => !elems.isEmpty

/-- `isinstance(v, str)`. -/
def PyVal.isStr : PyVal → Bool
  | .str _ => true
  | _ => false

/-- The string payload of a `str` value. -/
def PyVal.strVal : PyVal → String
  | .str s => s
  | _ => ""

/-- `type(v).__name__`. -/
def PyVal.typeName : PyVal → String
  | .none => "NoneType"
  | .str _ => "str"
  | .int _ => "int"
  | .bool _ => "bool"
  | .dict _ => "dict"
  | .list _ => "list"

/-- `d.update(upd)` on a Python `dict`: insert-or-replace every entry of
`upd`, in order. -/
def dictUpdate {α : Type} (d upd : List (String × α)) : List (String × α) :=
  upd.foldl (fun acc kv => assocSet acc kv.1 kv.2) d

/-- One entry of `conversation_history`. -/
structure HistEntry where
  timestamp : String
  prompt : String
  response : String

/-- The mutable state of a `NiaBrainCore` instance. -/
structure NiaBrainCore where
  config : List (String × PyVal)
  memory_context : List (String × PyVal)
  conversation_history : List HistEntry

/-- `NiaBrainCore.__init__`: empty memory and history (`config or {}`
falls back to the empty dict when `config` is absent or falsy). -/
def initBrain (config : Option (List (String × PyVal))) : NiaBrainCore :=
  { config := match config with
      | some cfg => if !cfg.isEmpty then cfg else []
      | none => []
    memory_context := []
    conversation_history := [] }

/-- `prompt.lower()`: lower the string character by character. -/
def strLower (s : String) : String := ⟨s.data.map Char.toLower⟩

/-- `"error" in prompt.lower()`: the simulated-failure trigger of
`_process_reasoning`. -/
def containsError (s : String) : Bool := strContainsSub (strLower s) "error"

/-- `NiaBrainCore._process_reasoning(prompt)`: inside its own `LogContext`,
raise `RuntimeError("Simulated reasoning error")` when the prompt contains
`"error"` case-insensitively (logged and re-raised), otherwise return the
template response. `clock i` is the `i`-th reading of `datetime.now()`. -/
def process_reasoning (prompt : String) (clock : Nat → Int) :
    Except ExcInfo String × List LogEvent :=
  let (c, startEv) := LogContext.enterScope "Brain._process_reasoning()" (clock 0)
  if containsError prompt then
    let e : ExcInfo := { excType := "RuntimeError", excVal := "Simulated reasoning error" }
    let errEv : LogEvent :=
      { severity := ERROR, message := "Reasoning processing failed: " ++ e.excVal }
    let (endEv, _, _) := c.exitScope (clock 1) (some e)
    (.error e, [startEv, errEv, endEv])
  else
    let result := "Reasoning response to: " ++ prompt
    let dbgEv : LogEvent :=
      { severity := DEBUG, message := "Processed reasoning: " ++ result.take 50 ++ "..." }
    let (endEv, _, _) := c.exitScope (clock 1) Option.none
    (.ok result, [startEv, dbgEv, endEv])

/-- `NiaBrainCore.think(prompt, context)`: inside a `LogContext`, validate the
prompt (a falsy or non-string prompt raises `ValueError`, caught by the
`except ValueError` clause which logs a warning and returns `None`), merge a
truthy `context` into `memory_context`, run `_process_reasoning`, and on
success append to `conversation_history` and return the result; any other
exception is logged and re-raised, so it crosses the scope, which then emits
`FAILED`. `clock i` is the `i`-th reading of `datetime.now()` and
`historyTimestamp` the `isoformat()` stamp recorded in the history entry.
Returns the updated state, the outcome, and the emitted events in order. -/
def NiaBrainCore.think (b : NiaBrainCore) (prompt : PyVal)
    (context : Option (List (String × PyVal))) (clock : Nat → Int)
    (historyTimestamp : String) :
    NiaBrainCore × Except ExcInfo (Option String) × List LogEvent :=
  let (c, startEv) := LogContext.enterScope "Brain.think()" (clock 0)
  if !(prompt.isTruthy && prompt.isStr) then
    let wEv : LogEvent :=
      { severity := WARNING
        message := "Invalid input for reasoning: Prompt must be a non-empty string" }
    let (endEv, _, _) := c.exitScope (clock 1) Option.none
    (b, .ok Option.none, [startEv, wEv, endEv])
  else
    let ps := prompt.strVal
    let infoEv : LogEvent :=
      { severity := INFO, message := "Processing prompt: " ++ ps.take 100 ++ "..." }
    let b1 : NiaBrainCore := match context with
      | some ctx =>
          if !ctx.isEmpty then
            { b with memory_context := dictUpdate b.memory_context ctx }
          else b
      | none => b
    let ctxEvs : List LogEvent := match context with
      | some ctx =>
          if !ctx.isEmpty then
            [{ severity := DEBUG
               message := "Memory context updated with " ++ toString ctx.length ++ " items" }]
          else []
      | none => []
    let (res, innerEvs) := process_reasoning ps (fun i => clock (1 + i))
    match res with
    | .ok r =>
        let b2 : NiaBrainCore :=
          { b1 with conversation_history := b1.conversation_history ++
              [{ timestamp := historyTimestamp, prompt := ps, response := r }] }
        let doneEv : LogEvent :=
          { severity := INFO
            message := "Reasoning completed successfully, response length: " ++
              toString r.length }
        let (endEv, _, _) := c.exitScope (clock 4) Option.none
        (b2, .ok (some r), startEv :: infoEv :: (ctxEvs ++ innerEvs ++ [doneEv, endEv]))
    | .error e =>
        if e.excType == "ValueError" then
          let wEv : LogEvent :=
            { severity := WARNING, message := "Invalid input for reasoning: " ++ e.excVal }
          let (endEv, _, _) := c.exitScope (clock 4) Option.none
          (b1, .ok Option.none, startEv :: infoEv :: (ctxEvs ++ innerEvs ++ [wEv, endEv]))
        else
          let errEv : LogEvent :=
            { severity := ERROR, message := "Error during reasoning: " ++ e.excVal }
          let (endEv, _, _) := c.exitScope (clock 4) (some e)
          (b1, .error e, startEv :: infoEv :: (ctxEvs ++ innerEvs ++ [errEv, endEv]))

/-- `NiaBrainCore.recall_memory(key)`: inside a `LogContext`, return the
stored value when `key` is present in `memory_context` (logging an INFO
line), otherwise log a warning and return `None`. -/
def NiaBrainCore.recall_memory (b : NiaBrainCore) (key : String)
    (clock : Nat → Int) : Option PyVal × List LogEvent :=
  let (c, startEv) :=
    LogContext.enterScope ("Brain.recall_memory(" ++ key ++ ")") (clock 0)
  match assocGet b.memory_context key with
  | some v =>
      let ev : LogEvent := { severity := INFO, message := "Memory recalled: " ++ key }
      let (endEv, _, _) := c.exitScope (clock 1) Option.none
      (some v, [startEv, ev, endEv])
  | none =>
      let ev : LogEvent :=
        { severity := WARNING, message := "Memory key not found: " ++ key }
      let (endEv, _, _) := c.exitScope (clock 1) Option.none
      (Option.none, [startEv, ev, endEv])

/-- `NiaBrainCore.store_memory(key, value)`: inside a `LogContext`, an empty
key raises `ValueError`, caught by the `except Exception` clause which logs
the error and returns `False` (so the scope still exits cleanly); otherwise
store the value and return `True`. -/
def NiaBrainCore.store_memory (b : NiaBrainCore) (key : String) (value : PyVal)
    (clock : Nat → Int) : NiaBrainCore × Bool × List LogEvent :=
  let (c, startEv) :=
    LogContext.enterScope ("Brain.store_memory(" ++ key ++ ")") (clock 0)
  if key.isEmpty then
    let ev : LogEvent :=
      { severity := ERROR, message := "Error storing memory: Memory key cannot be empty" }
    let (endEv, _, _) := c.exitScope (clock 1) Option.none
    (b, false, [startEv, ev, endEv])
  else
    let b1 : NiaBrainCore :=
      { b with memory_context := assocSet b.memory_context key value }
    let ev : LogEvent :=
      { severity := INFO
        message := "Memory stored: " ++ key ++ " = " ++ value.typeName }
    let (endEv, _, _) := c.exitScope (clock 1) Option.none
    (b1, true, [startEv, ev, endEv])

/-! ### Helper lemmas -/

/-- Lookup after insert-or-replace at the same key yields the inserted value. -/
theorem assocGet_assocSet {α : Type} (d : List (String × α)) (k : String) (v : α) :
    assocGet (assocSet d k v) k = some v := by
  induction d with
  | nil => simp [assocSet, assocGet]
  | cons hd tl ih =>
      obtain ⟨k1, v1⟩ := hd
      by_cases hk : k1 = k
      · simp [assocSet, assocGet, hk]
      · simp [assocSet, assocGet, hk, ih]

/-- A cons list never has a cons list with a different head as a prefix. -/
theorem not_cons_prefix_cons {a b : Char} (hne : ¬a = b) (t1 t2 : List Char) :
    ¬((a :: t1) <+: (b :: t2)) := by
  rintro ⟨t, ht⟩
  rw [List.cons_append] at ht
  injection ht with h1 _
  exact hne h1

/-- The event emitted by `__enter__` is a `START:` event. -/
theorem enterScope_isStart (op : String) (t : Int) :
    isStartEvent (LogContext.enterScope op t).2 = true := by
  apply decide_eq_true
  simp only [LogContext.enterScope, String.data_append]
  exact List.prefix_append _ _

/-- The event emitted by `__enter__` is not a `COMPLETE:` event. -/
theorem enterScope_not_complete (op : String) (t : Int) :
    isCompleteEvent (LogContext.enterScope op t).2 = false := by
  rw [Bool.eq_false_iff]
  intro h
  rw [isCompleteEvent, LogContext.enterScope, strStartsWith, decide_eq_true_iff] at h
  rw [String.data_append] at h
  rw [show "COMPLETE: ".data = 'C' :: "OMPLETE: ".data from rfl,
    show "START: ".data = 'S' :: "TART: ".data from rfl, List.cons_append] at h
  exact not_cons_prefix_cons (by decide) _ _ h

/-- The event emitted by `__enter__` is not a `FAILED:` event. -/
theorem enterScope_not_failed (op : String) (t : Int) :
    isFailedEvent (LogContext.enterScope op t).2 = false := by
  rw [Bool.eq_false_iff]
  intro h
  rw [isFailedEvent, LogContext.enterScope, strStartsWith, decide_eq_true_iff] at h
  rw [String.data_append] at h
  rw [show "FAILED: ".data = 'F' :: "AILED: ".data from rfl,
    show "START: ".data = 'S' :: "TART: ".data from rfl, List.cons_append] at h
  exact not_cons_prefix_cons (by decide) _ _ h

/-- The event emitted by `__exit__` on a clean exit is a `COMPLETE:` event. -/
theorem exitScope_none_complete (c : LogContext) (t : Int) :
    isCompleteEvent (c.exitScope t Option.none).1 = true := by
  apply decide_eq_true
  simp only [LogContext.exitScope, String.data_append, List.append_assoc]
  exact List.prefix_append _ _

/-- The event emitted by `__exit__` on a clean exit is not a `FAILED:` event. -/
theorem exitScope_none_not_failed (c : LogContext) (t : Int) :
    isFailedEvent (c.exitScope t Option.none).1 = false := by
  rw [Bool.eq_false_iff]
  intro h
  rw [isFailedEvent, LogContext.exitScope, strStartsWith, decide_eq_true_iff] at h
  simp only [String.data_append, List.append_assoc] at h
  rw [List.cons_append] at h
  exact not_cons_prefix_cons (by decide) _ _ h

/-- The event emitted by `__exit__` on a clean exit is not a `START:` event. -/
theorem exitScope_none_not_start (c : LogContext) (t : Int) :
    isStartEvent (c.exitScope t Option.none).1 = false := by
  rw [Bool.eq_false_iff]
  intro h
  rw [isStartEvent, LogContext.exitScope, strStartsWith, decide_eq_true_iff] at h
  simp only [String.data_append, List.append_assoc] at h
  rw [List.cons_append] at h
  exact not_cons_prefix_cons (by decide) _ _ h

/-- The event emitted by `__exit__` with an in-flight exception is a
`FAILED:` event. -/
theorem exitScope_some_failed (c : LogContext) (t : Int) (e : ExcInfo) :
    isFailedEvent (c.exitScope t (some e)).1 = true := by
  apply decide_eq_true
  simp only [LogContext.exitScope, String.data_append, List.append_assoc]
  exact List.prefix_append _ _

/-- The event emitted by `__exit__` with an in-flight exception is not a
`COMPLETE:` event. -/
theorem exitScope_some_not_complete (c : LogContext) (t : Int) (e : ExcInfo) :
    isCompleteEvent (c.exitScope t (some e)).1 = false := by
  rw [Bool.eq_false_iff]
  intro h
  rw [isCompleteEvent, LogContext.exitScope, strStartsWith, decide_eq_true_iff] at h
  simp only [String.data_append, List.append_assoc] at h
  rw [List.cons_append] at h
  exact not_cons_prefix_cons (by decide) _ _ h

/-- The event emitted by `__exit__` with an in-flight exception is not a
`START:` event. -/
theorem exitScope_some_not_start (c : LogContext) (t : Int) (e : ExcInfo) :
    isStartEvent (c.exitScope t (some e)).1 = false := by
  rw [Bool.eq_false_iff]
  intro h
  rw [isStartEvent, LogContext.exitScope, strStartsWith, decide_eq_true_iff] at h
  simp only [String.data_append, List.append_assoc] at h
  rw [List.cons_append] at h
  exact not_cons_prefix_cons (by decide) _ _ h

/-- `__exit__` always returns `False` for the suppression flag. -/
theorem exitScope_suppressFlag (c : LogContext) (t : Int) (exc : Option ExcInfo) :
    (c.exitScope t exc).2.2 = false := by
  cases exc <;> rfl

/-! ### Claims -/

/-- C8: for every scope entered with a `TimedOperationScope` (`LogContext`),
the elapsed duration computed at exit — the exit-time clock reading minus the
start-timestamp captured at entry — and reported in the COMPLETE or FAILED
message is greater than or equal to zero (the clock readings being
non-decreasing between entry and exit). -/
theorem claim_C8 (op : String) (t0 t1 : Int) (exc : Option ExcInfo)
    (h : t0 ≤ t1) :
    ((LogContext.enterScope op t0).1.exitScope t1 exc).2.1 = t1 - t0 ∧
    0 ≤ ((LogContext.enterScope op t0).1.exitScope t1 exc).2.1 := by
  cases exc <;> simp [LogContext.enterScope, LogContext.exitScope] <;> omega

/-- Witness for C8 at a concrete scope entered at time 2 and exited at 7. -/
theorem claim_C8_witness :
    ((LogContext.enterScope "Brain.think()" 2).1.exitScope 7 Option.none).2.1 = 5 ∧
    0 ≤ ((LogContext.enterScope "Brain.think()" 2).1.exitScope 7 Option.none).2.1 :=
  claim_C8 "Brain.think()" 2 7 Option.none (by decide)

/-- C5: configuring a router whose name is not yet registered attaches
exactly four sinks with the fixed policy: an error file sink at threshold
ERROR without rotation, an info file sink at threshold INFO rotating at
10 MiB with 5 retained backups, an audit file sink at threshold INFO without
rotation, and a console sink at threshold WARNING. -/
theorem claim_C5 (reg : Registry) (nm : String)
    (h : assocGet reg nm = Option.none) :
    (setup_logging reg nm).1.handlers =
      [errorSink, infoSink, auditSink, consoleSink] ∧
    (setup_logging reg nm).1.handlers.length = 4 ∧
    errorSink.threshold = ERROR ∧ errorSink.rotation = Option.none ∧
    infoSink.threshold = INFO ∧ infoSink.rotation = some (10 * 1024 * 1024, 5) ∧
    auditSink.threshold = INFO ∧ auditSink.rotation = Option.none ∧
    consoleSink.threshold = WARNING ∧ consoleSink.rotation = Option.none := by
  refine ⟨?_, ?_, rfl, rfl, rfl, rfl, rfl, rfl, rfl, rfl⟩ <;>
    simp [setup_logging, getLogger, h]

/-- Witness for C5 on the empty registry with the default logger name. -/
theorem claim_C5_witness :
    (setup_logging [] "nia_core").1.handlers =
      [errorSink, infoSink, auditSink, consoleSink] ∧
    (setup_logging [] "nia_core").1.handlers.length = 4 ∧
    errorSink.threshold = ERROR ∧ errorSink.rotation = Option.none ∧
    infoSink.threshold = INFO ∧ infoSink.rotation = some (10 * 1024 * 1024, 5) ∧
    auditSink.threshold = INFO ∧ auditSink.rotation = Option.none ∧
    consoleSink.threshold = WARNING ∧ consoleSink.rotation = Option.none :=
  claim_C5 [] "nia_core" rfl

/-- C6: storing under a non-empty key returns `True` and a subsequent recall
of that key returns the stored value; recalling a key absent from
`memory_context` returns `None` (and, the return type being `Option`, no
exception reaches the caller). -/
theorem claim_C6 (b : NiaBrainCore) (k : String) (v : PyVal)
    (clock clock2 clock3 : Nat → Int) (b2 : NiaBrainCore) (k2 : String)
    (hk : k.isEmpty = false)
    (h2 : assocGet b2.memory_context k2 = Option.none) :
    (b.store_memory k v clock).2.1 = true ∧
    ((b.store_memory k v clock).1.recall_memory k clock2).1 = some v ∧
    (b2.recall_memory k2 clock3).1 = Option.none := by
  refine ⟨?_, ?_, ?_⟩
  · simp [NiaBrainCore.store_memory, hk]
  · simp [NiaBrainCore.store_memory, NiaBrainCore.recall_memory, hk,
      assocGet_assocSet]
  · simp [NiaBrainCore.recall_memory, h2]

/-- Witness for C6: store `"v"` under `"project_name"` on a fresh brain and
recall it; recall a never-stored key on a fresh brain. -/
theorem claim_C6_witness :
    ((initBrain Option.none).store_memory "project_name" (PyVal.str "v")
        (fun _ => 0)).2.1 = true ∧
    (((initBrain Option.none).store_memory "project_name" (PyVal.str "v")
        (fun _ => 0)).1.recall_memory "project_name" (fun _ => 0)).1 =
      some (PyVal.str "v") ∧
    ((initBrain Option.none).recall_memory "missing" (fun _ => 0)).1 =
      Option.none :=
  claim_C6 (initBrain Option.none) "project_name" (PyVal.str "v")
    (fun _ => 0) (fun _ => 0) (fun _ => 0) (initBrain Option.none) "missing"
    rfl rfl

/-- C7: invalid-input errors on the stub are absorbed locally: a falsy or
non-string prompt makes `think` return `None` with an `ok` outcome (no
exception reaches the caller), and an empty key makes `store_memory` return
`False` with no exception. -/
theorem claim_C7 (b : NiaBrainCore) (p : PyVal)
    (context : Option (List (String × PyVal))) (clock clock2 : Nat → Int)
    (ts : String) (v : PyVal)
    (hp : p.isTruthy = false ∨ p.isStr = false) :
    (b.think p context clock ts).2.1 = Except.ok Option.none ∧
    (b.store_memory "" v clock2).2.1 = false := by
  constructor
  · rcases hp with hp | hp <;> simp [NiaBrainCore.think, hp]
  · simp [NiaBrainCore.store_memory, show "".isEmpty = true from rfl]

/-- Witness for C7: a truthy non-string prompt (the integer 5) and an empty
string prompt both yield `None`; storing under the empty key yields
`False`. -/
theorem claim_C7_witness :
    (((initBrain Option.none).think (PyVal.int 5) Option.none (fun _ => 0)
        "t").2.1 = Except.ok Option.none ∧
      ((initBrain Option.none).store_memory "" (PyVal.str "v")
        (fun _ => 0)).2.1 = false) ∧
    ((initBrain Option.none).think (PyVal.str "") Option.none (fun _ => 0)
        "t").2.1 = Except.ok Option.none :=
  ⟨claim_C7 (initBrain Option.none) (PyVal.int 5) Option.none (fun _ => 0)
      (fun _ => 0) "t" (PyVal.str "v") (Or.inr rfl),
   (claim_C7 (initBrain Option.none) (PyVal.str "") Option.none (fun _ => 0)
      (fun _ => 0) "t" (PyVal.str "v") (Or.inl rfl)).1⟩

/-- A prompt that contains `"error"` case-insensitively is not the empty
string. -/
theorem containsError_isEmpty_false {s : String} (h : containsError s = true) :
    s.isEmpty = false := by
  by_contra hne
  rw [Bool.not_eq_false, String.isEmpty_iff] at hne
  subst hne
  exact absurd h (by decide)

/-- The event emitted by `__exit__` with an in-flight exception carries the
ERROR severity. -/
theorem exitScope_some_severity (c : LogContext) (t : Int) (e : ExcInfo) :
    ((c.exitScope t (some e)).1).severity = ERROR := rfl

/-- C3: router acquisition is idempotent: running `setup_logging` a second
time with the same name returns the same router with the same registry, the
handler count stays fixed, and a single emitted event is delivered
identically (no duplicate lines). -/
theorem claim_C3 (reg : Registry) (nm : String) :
    (setup_logging (setup_logging reg nm).2 nm).1 = (setup_logging reg nm).1 ∧
    (setup_logging (setup_logging reg nm).2 nm).2 = (setup_logging reg nm).2 ∧
    (setup_logging (setup_logging reg nm).2 nm).1.handlers.length =
      (setup_logging reg nm).1.handlers.length ∧
    ∀ ev : LogEvent, (setup_logging (setup_logging reg nm).2 nm).1.emit ev =
      (setup_logging reg nm).1.emit ev := by
  have key : (setup_logging (setup_logging reg nm).2 nm).1 =
      (setup_logging reg nm).1 ∧
      (setup_logging (setup_logging reg nm).2 nm).2 = (setup_logging reg nm).2 := by
    cases h : assocGet reg nm with
    | none => simp [setup_logging, getLogger, h, assocGet_assocSet]
    | some lg =>
        cases he : lg.handlers.isEmpty with
        | true => simp [setup_logging, getLogger, h, he, assocGet_assocSet]
        | false => simp [setup_logging, getLogger, h, he]
  exact ⟨key.1, key.2, by rw [key.1], fun ev => by rw [key.1]⟩

/-- C9: `think` on any non-empty string prompt that does not contain
`"error"` case-insensitively returns a string containing the prompt verbatim
as a substring (and that string is the reasoning template applied to the
prompt). -/
theorem claim_C9 (b : NiaBrainCore) (s : String)
    (context : Option (List (String × PyVal))) (clock : Nat → Int) (ts : String)
    (hs : s.isEmpty = false) (he : containsError s = false) :
    (b.think (PyVal.str s) context clock ts).2.1 =
      Except.ok (some ("Reasoning response to: " ++ s)) ∧
    strContainsSub ("Reasoning response to: " ++ s) s = true := by
  constructor
  · simp [NiaBrainCore.think, PyVal.isTruthy, PyVal.isStr, PyVal.strVal, hs,
      process_reasoning, he]
  · apply decide_eq_true
    rw [String.data_append]
    exact (List.suffix_append _ _).isInfix

/-- Witness for C9 at the end-to-end prompt from the spec. -/
theorem claim_C9_witness :
    ((initBrain Option.none).think (PyVal.str "What is machine learning?")
        Option.none (fun _ => 0) "t").2.1 =
      Except.ok (some ("Reasoning response to: " ++ "What is machine learning?")) ∧
    strContainsSub ("Reasoning response to: " ++ "What is machine learning?")
      "What is machine learning?" = true :=
  claim_C9 (initBrain Option.none) "What is machine learning?" Option.none
    (fun _ => 0) "t" rfl (by decide)

/-- C2: `think` on any prompt string containing `"error"` case-insensitively
raises the simulated `RuntimeError` to the caller (not a `None` return), and
the emitted trace contains a FAILED event at ERROR severity. -/
theorem claim_C2 (b : NiaBrainCore) (s : String)
    (context : Option (List (String × PyVal))) (clock : Nat → Int) (ts : String)
    (he : containsError s = true) :
    (b.think (PyVal.str s) context clock ts).2.1 =
      Except.error { excType := "RuntimeError", excVal := "Simulated reasoning error" } ∧
    ∃ e ∈ (b.think (PyVal.str s) context clock ts).2.2,
      isFailedEvent e = true ∧ e.severity = ERROR := by
  have hs := containsError_isEmpty_false he
  constructor
  · simp [NiaBrainCore.think, PyVal.isTruthy, PyVal.isStr, PyVal.strVal, hs,
      process_reasoning, he, show (("RuntimeError" : String) == "ValueError") = false from rfl]
  · refine ⟨((LogContext.enterScope "Brain.think()" (clock 0)).1.exitScope (clock 4)
        (some { excType := "RuntimeError", excVal := "Simulated reasoning error" })).1,
      ?_, exitScope_some_failed _ _ _, exitScope_some_severity _ _ _⟩
    simp [NiaBrainCore.think, PyVal.isTruthy, PyVal.isStr, PyVal.strVal, hs,
      process_reasoning, he, show (("RuntimeError" : String) == "ValueError") = false from rfl,
      List.mem_cons, List.mem_append]

/-- Witness for C2 at the prompt `"error"` on a fresh brain. -/
theorem claim_C2_witness :
    ((initBrain Option.none).think (PyVal.str "error") Option.none
        (fun _ => 0) "t").2.1 =
      Except.error { excType := "RuntimeError", excVal := "Simulated reasoning error" } ∧
    ∃ e ∈ ((initBrain Option.none).think (PyVal.str "error") Option.none
        (fun _ => 0) "t").2.2,
      isFailedEvent e = true ∧ e.severity = ERROR :=
  claim_C2 (initBrain Option.none) "error" Option.none (fun _ => 0) "t"
    (by decide)

/-- C10: `think` is not atomic on failure: with a context dictionary and an
error-triggering prompt, the error propagates while `memory_context` has
already absorbed the context's entries, and `conversation_history` is left
unchanged. -/
theorem claim_C10 (b : NiaBrainCore) (s : String) (ctx : List (String × PyVal))
    (clock : Nat → Int) (ts : String) (he : containsError s = true) :
    (b.think (PyVal.str s) (some ctx) clock ts).2.1 =
      Except.error { excType := "RuntimeError", excVal := "Simulated reasoning error" } ∧
    (b.think (PyVal.str s) (some ctx) clock ts).1.memory_context =
      dictUpdate b.memory_context ctx ∧
    (b.think (PyVal.str s) (some ctx) clock ts).1.conversation_history =
      b.conversation_history := by
  have hs := containsError_isEmpty_false he
  cases ctx with
  | nil =>
      refine ⟨?_, ?_, ?_⟩ <;>
        simp [NiaBrainCore.think, PyVal.isTruthy, PyVal.isStr, PyVal.strVal, hs,
          process_reasoning, he, dictUpdate,
          show (("RuntimeError" : String) == "ValueError") = false from rfl]
  | cons hd tl =>
      refine ⟨?_, ?_, ?_⟩ <;>
        simp [NiaBrainCore.think, PyVal.isTruthy, PyVal.isStr, PyVal.strVal, hs,
          process_reasoning, he,
          show (("RuntimeError" : String) == "ValueError") = false from rfl]

/-- Witness for C10: an error prompt with a one-entry context on a fresh
brain. -/
theorem claim_C10_witness :
    ((initBrain Option.none).think (PyVal.str "error")
        (some [("k", PyVal.int 1)]) (fun _ => 0) "t").2.1 =
      Except.error { excType := "RuntimeError", excVal := "Simulated reasoning error" } ∧
    ((initBrain Option.none).think (PyVal.str "error")
        (some [("k", PyVal.int 1)]) (fun _ => 0) "t").1.memory_context =
      dictUpdate (initBrain Option.none).memory_context [("k", PyVal.int 1)] ∧
    ((initBrain Option.none).think (PyVal.str "error")
        (some [("k", PyVal.int 1)]) (fun _ => 0) "t").1.conversation_history =
      (initBrain Option.none).conversation_history :=
  claim_C10 (initBrain Option.none) "error" [("k", PyVal.int 1)] (fun _ => 0)
    "t" (by decide)

/-- C1: every scoped run emits exactly one scope START event and exactly one
scope terminal event — COMPLETE exactly when the body completes normally,
FAILED exactly when it raises, never both — and an in-flight error is never
suppressed: the outcome of the scoped run is the body's own error. -/
theorem claim_C1 {α : Type} (op : String) (t0 t1 : Int)
    (body : Except ExcInfo α × List LogEvent) :
    ((runScoped op t0 t1 body).1.countP
        fun te => te.fromScope && isStartEvent te.event) = 1 ∧
    ((runScoped op t0 t1 body).1.countP
        fun te => te.fromScope && isTerminalEvent te.event) = 1 ∧
    (∀ a : α, body.1 = Except.ok a →
      ((runScoped op t0 t1 body).1.countP
          fun te => te.fromScope && isCompleteEvent te.event) = 1 ∧
      ((runScoped op t0 t1 body).1.countP
          fun te => te.fromScope && isFailedEvent te.event) = 0 ∧
      (runScoped op t0 t1 body).2 = Except.ok (some a)) ∧
    (∀ e : ExcInfo, body.1 = Except.error e →
      ((runScoped op t0 t1 body).1.countP
          fun te => te.fromScope && isCompleteEvent te.event) = 0 ∧
      ((runScoped op t0 t1 body).1.countP
          fun te => te.fromScope && isFailedEvent te.event) = 1 ∧
      (runScoped op t0 t1 body).2 = Except.error e) := by
  obtain ⟨res, bodyEvs⟩ := body
  cases res with
  | ok a =>
      simp [runScoped, isTerminalEvent, List.countP_cons, List.countP_append,
        List.countP_map, Function.comp, enterScope_isStart,
        enterScope_not_complete, enterScope_not_failed, exitScope_none_complete,
        exitScope_none_not_failed, exitScope_none_not_start]
  | error e =>
      simp [runScoped, isTerminalEvent, List.countP_cons, List.countP_append,
        List.countP_map, Function.comp, enterScope_isStart,
        enterScope_not_complete, enterScope_not_failed, exitScope_some_failed,
        exitScope_some_not_complete, exitScope_some_not_start,
        exitScope_suppressFlag]

/-- Witness for C1: a scoped run around a raising body emits one START and
one FAILED scope event and propagates the error. -/
theorem claim_C1_witness :
    ((runScoped "Brain.think()" 0 5
        ((Except.error { excType := "RuntimeError", excVal := "boom" } :
            Except ExcInfo Nat), ([] : List LogEvent))).1.countP
      fun te => te.fromScope && isStartEvent te.event) = 1 ∧
    ((runScoped "Brain.think()" 0 5
        ((Except.error { excType := "RuntimeError", excVal := "boom" } :
            Except ExcInfo Nat), ([] : List LogEvent))).1.countP
      fun te => te.fromScope && isFailedEvent te.event) = 1 ∧
    (runScoped "Brain.think()" 0 5
        ((Except.error { excType := "RuntimeError", excVal := "boom" } :
            Except ExcInfo Nat), ([] : List LogEvent))).2 =
      Except.error { excType := "RuntimeError", excVal := "boom" } := by
  have h := claim_C1 "Brain.think()" 0 5
    ((Except.error { excType := "RuntimeError", excVal := "boom" } :
        Except ExcInfo Nat), ([] : List LogEvent))
  exact ⟨h.1, (h.2.2.2 _ rfl).2.1, (h.2.2.2 _ rfl).2.2⟩

/-- C4: for every event emitted through a freshly configured router and every
attached sink, the event is delivered to that sink exactly once when its
severity is at least the sink's threshold, and never when it is below. -/
theorem claim_C4 (reg : Registry) (nm : String) (s : Severity) (msg : String)
    (snk : Sink) (h : assocGet reg nm = Option.none)
    (hs : snk ∈ (setup_logging reg nm).1.handlers) :
    (((setup_logging reg nm).1.emit
        { severity := s.toLevel, message := msg }).countP
      fun d => d.1 == snk.id) =
      if snk.threshold ≤ s.toLevel then 1 else 0 := by
  have hlg : (setup_logging reg nm).1 =
      { name := nm, level := DEBUG,
        handlers := [errorSink, infoSink, auditSink, consoleSink] } := by
    simp [setup_logging, getLogger, h]
  rw [hlg] at hs ⊢
  simp only [List.mem_cons, List.not_mem_nil, or_false] at hs
  rcases hs with rfl | rfl | rfl | rfl <;> cases s <;>
    simp [Logger.emit, callHandlers, Severity.toLevel, errorSink, infoSink,
      auditSink, consoleSink, DEBUG, INFO, WARNING, ERROR, CRITICAL,
      List.countP_cons]

/-- Witness for C4: an ERROR-severity event is delivered exactly once to the
error file sink of the freshly configured default router. -/
theorem claim_C4_witness :
    (((setup_logging [] "nia_core").1.emit
        { severity := Severity.error.toLevel, message := "boom" }).countP
      fun d => d.1 == errorSink.id) =
      if errorSink.threshold ≤ Severity.error.toLevel then 1 else 0 :=
  claim_C4 [] "nia_core" Severity.error "boom" errorSink rfl (by decide)

end Nia
